import Mathlib

/-!
Verification development for a small Flask mock server (src/app.py).
The server exposes ten routes, each accepting GET and POST, each returning a
fixed canned response; every handler contains an identical POST-body logging
block that reads request.json (for JSON-typed requests) or request.form.

The embedding below models JSON values, a standard (RFC 8259 style) JSON
parser standing in for Python json.loads, the request/response shapes, the
ten view functions, the route registry, and Flask request dispatch, including
two framework behaviours that matter for the observable responses:
  1. request.json raises BadRequest when the request declares a JSON content
     type but the body fails to parse, so Flask answers 400 instead of the
     canned response (there is no try/except in the handlers);
  2. werkzeug applies the default mimetype text/html when a view returns a
     plain string or a Response without a content type, and for status 204 it
     only suppresses Content-Length, not Content-Type.
-/

namespace App

/-- JSON values. Numeric literals keep their source lexeme so that the model
commits to no floating-point semantics; the application only ever emits the
integer literals 0, 1 and 2. -/
inductive Json where
  | null : Json
  | bool : Bool → Json
  | num : String → Json
  | str : String → Json
  | arr : List Json → Json
  | obj : List (String × Json) → Json
deriving Repr

/-- Escape one character for placement inside a JSON string literal. -/
def escapeChar (c : Char) : String :=
  if c = '"' then "\\\""
  else if c = '\\' then "\\\\"
  else if c = '\n' then "\\n"
  else if c = '\r' then "\\r"
  else if c = '\t' then "\\t"
  else String.singleton c

/-- Serialise a JSON string literal, quotes included. -/
def renderString (s : String) : String :=
  "\"" ++ String.join (s.toList.map escapeChar) ++ "\""

mutual

/-- Serialise a JSON value (deterministic, insertion order preserved). -/
def render : Json → String
  | Json.null => "null"
  | Json.bool b => if b then "true" else "false"
  | Json.num lit => lit
  | Json.str s => renderString s
  | Json.arr xs => "[" ++ renderItems xs ++ "]"
  | Json.obj fs => "\x7b" ++ renderFields fs ++ "\x7d"

/-- Serialise array elements, comma separated. -/
def renderItems : List Json → String
  | [] => ""
  | [x] => render x
  | x :: xs => render x ++ ", " ++ renderItems xs

/-- Serialise object members, comma separated. -/
def renderFields : List (String × Json) → String
  | [] => ""
  | [(k, v)] => renderString k ++ ": " ++ render v
  | (k, v) :: fs => renderString k ++ ": " ++ render v ++ ", " ++ renderFields fs

end

/-- Look a key up in a JSON object (first occurrence). -/
def Json.getField : Json → String → Option Json
  | Json.obj fs, k => (fs.find? (fun kv => kv.1 == k)).map Prod.snd
  | _, _ => none

/-- Value of a hexadecimal digit. -/
def hexVal (c : Char) : Option Nat :=
  if '0' ≤ c ∧ c ≤ '9' then some (c.toNat - '0'.toNat)
  else if 'a' ≤ c ∧ c ≤ 'f' then some (c.toNat - 'a'.toNat + 10)
  else if 'A' ≤ c ∧ c ≤ 'F' then some (c.toNat - 'A'.toNat + 10)
  else none

/-- Drop leading JSON whitespace. -/
def skipWs : List Char → List Char
  | c :: cs => if c = ' ' ∨ c = '\t' ∨ c = '\n' ∨ c = '\r' then skipWs cs else c :: cs
  | [] => []

/-- Scan the characters of a JSON string literal after the opening quote,
decoding escapes, returning the decoded characters and the rest of the
input after the closing quote.  Fuelled; one character at least is consumed
per step, so fuel equal to the input length suffices. -/
def parseStringChars : Nat → List Char → Option (List Char × List Char)
  | 0, _ => none
  | _ + 1, [] => none
  | fuel + 1, c :: cs =>
    if c = '"' then some ([], cs)
    else if c = '\\' then
      match cs with
      | [] => none
      | e :: cs2 =>
        let decoded : Option (Char × List Char) :=
          if e = 'u' then
            match cs2 with
            | h1 :: h2 :: h3 :: h4 :: cs3 =>
              match hexVal h1, hexVal h2, hexVal h3, hexVal h4 with
              | some a, some b, some c4, some d =>
                some (Char.ofNat (((a * 16 + b) * 16 + c4) * 16 + d), cs3)
              | _, _, _, _ => none
            | _ => none
          else if e = '"' ∨ e = '\\' ∨ e = '/' then some (e, cs2)
          else if e = 'b' then some (Char.ofNat 8, cs2)
          else if e = 'f' then some (Char.ofNat 12, cs2)
          else if e = 'n' then some ('\n', cs2)
          else if e = 'r' then some ('\r', cs2)
          else if e = 't' then some ('\t', cs2)
          else none
        match decoded with
        | none => none
        | some (d, rest) =>
          match parseStringChars fuel rest with
          | none => none
          | some (out, rest2) => some (d :: out, rest2)
    else
      match parseStringChars fuel cs with
      | none => none
      | some (out, rest) => some (c :: out, rest)

/-- Take the maximal run of leading decimal digits. -/
def takeDigits : List Char → List Char × List Char
  | [] => ([], [])
  | c :: cs =>
    if c.isDigit then
      let (ds, rest) := takeDigits cs
      (c :: ds, rest)
    else ([], c :: cs)

/-- Parse an optional exponent part of a JSON number, extending the lexeme. -/
def parseExpPart (acc : List Char) (cs : List Char) : Option (List Char × List Char) :=
  match cs with
  | e :: cs1 =>
    if e = 'e' ∨ e = 'E' then
      let (sgn, cs2) : List Char × List Char :=
        match cs1 with
        | c :: t => if c = '+' ∨ c = '-' then ([c], t) else ([], c :: t)
        | [] => ([], [])
      match cs2 with
      | d :: _ =>
        if d.isDigit then
          let (ds, cs3) := takeDigits cs2
          some (acc ++ [e] ++ sgn ++ ds, cs3)
        else none
      | [] => none
    else some (acc, e :: cs1)
  | [] => some (acc, [])

/-- Parse an optional fraction part of a JSON number, then the exponent. -/
def parseFracPart (acc : List Char) (cs : List Char) : Option (List Char × List Char) :=
  match cs with
  | '.' :: cs1 =>
    match cs1 with
    | d :: _ =>
      if d.isDigit then
        let (ds, cs2) := takeDigits cs1
        parseExpPart (acc ++ ['.'] ++ ds) cs2
      else none
    | [] => none
  | _ => parseExpPart acc cs

/-- Parse a JSON number (RFC 8259 grammar: no leading zeros, optional minus,
fraction and exponent), returning its lexeme. -/
def parseNumber (cs : List Char) : Option (List Char × List Char) :=
  let (neg, cs1) : List Char × List Char :=
    match cs with
    | '-' :: t => (['-'], t)
    | _ => ([], cs)
  match cs1 with
  | c :: cs2 =>
    if c = '0' then parseFracPart (neg ++ [c]) cs2
    else if c.isDigit then
      let (ds, cs3) := takeDigits cs2
      parseFracPart (neg ++ c :: ds) cs3
    else none
  | [] => none

mutual

/-- Parse one JSON value, leading whitespace allowed. -/
def parseValue : Nat → List Char → Option (Json × List Char)
  | 0, _ => none
  | fuel + 1, cs =>
    match skipWs cs with
    | [] => none
    | c :: cs1 =>
      if c = '"' then
        match parseStringChars (cs1.length + 1) cs1 with
        | some (chars, rest) => some (Json.str (String.mk chars), rest)
        | none => none
      else if c = '\x7b' then parseObjectBody fuel cs1
      else if c = '[' then parseArrayBody fuel cs1
      else if c = 't' then
        match cs1 with
        | 'r' :: 'u' :: 'e' :: rest => some (Json.bool true, rest)
        | _ => none
      else if c = 'f' then
        match cs1 with
        | 'a' :: 'l' :: 's' :: 'e' :: rest => some (Json.bool false, rest)
        | _ => none
      else if c = 'n' then
        match cs1 with
        | 'u' :: 'l' :: 'l' :: rest => some (Json.null, rest)
        | _ => none
      else
        match parseNumber (c :: cs1) with
        | some (lex, rest) => some (Json.num (String.mk lex), rest)
        | none => none

/-- Parse the body of a JSON array after the opening bracket. -/
def parseArrayBody : Nat → List Char → Option (Json × List Char)
  | 0, _ => none
  | fuel + 1, cs =>
    match skipWs cs with
    | ']' :: rest => some (Json.arr [], rest)
    | cs1 =>
      match parseItems fuel cs1 with
      | some (items, rest) => some (Json.arr items, rest)
      | none => none

/-- Parse one or more comma-separated array elements up to the closing
bracket. -/
def parseItems : Nat → List Char → Option (List Json × List Char)
  | 0, _ => none
  | fuel + 1, cs =>
    match parseValue fuel cs with
    | none => none
    | some (v, rest) =>
      match skipWs rest with
      | ',' :: rest1 =>
        match parseItems fuel rest1 with
        | some (vs, rest2) => some (v :: vs, rest2)
        | none => none
      | ']' :: rest1 => some ([v], rest1)
      | _ => none

/-- Parse the body of a JSON object after the opening brace. -/
def parseObjectBody : Nat → List Char → Option (Json × List Char)
  | 0, _ => none
  | fuel + 1, cs =>
    match skipWs cs with
    | '\x7d' :: rest => some (Json.obj [], rest)
    | cs1 =>
      match parseMembers fuel cs1 with
      | some (fs, rest) => some (Json.obj fs, rest)
      | none => none

/-- Parse one or more comma-separated object members up to the closing
brace. -/
def parseMembers : Nat → List Char → Option (List (String × Json) × List Char)
  | 0, _ => none
  | fuel + 1, cs =>
    match skipWs cs with
    | '"' :: cs1 =>
      match parseStringChars (cs1.length + 1) cs1 with
      | none => none
      | some (kchars, rest) =>
        match skipWs rest with
        | ':' :: rest1 =>
          match parseValue fuel rest1 with
          | none => none
          | some (v, rest2) =>
            match skipWs rest2 with
            | ',' :: rest3 =>
              match parseMembers fuel rest3 with
              | some (fs, rest4) => some ((String.mk kchars, v) :: fs, rest4)
              | none => none
            | '\x7d' :: rest3 => some ([(String.mk kchars, v)], rest3)
            | _ => none
        | _ => none
    | _ => none

end

/-- Standard JSON parsing of a whole document, modelling Python json.loads as
used by Flask request.get_json: the result is some value exactly when the
body is a well-formed JSON text.  Fuel exceeds the input length, which
bounds the recursion depth, so it never runs out on well-formed input. -/
def parseJson (s : String) : Option Json :=
  let cs := s.toList
  match parseValue (cs.length + 2) cs with
  | some (v, rest) =>
    match skipWs rest with
    | [] => some v
    | _ => none
  | none => none

/-! ## HTTP model -/

/-- Whether the string s begins with the string p (computed on the character
lists, so that it evaluates by plain reduction). -/
def strStartsWith (s p : String) : Bool :=
  s.toList.take p.toList.length == p.toList

/-- Whether the string s ends with the string p. -/
def strEndsWith (s p : String) : Bool :=
  s.toList.drop (s.toList.length - p.toList.length) == p.toList

/-- Request methods the application registers (src/app.py registers every
route with methods equal to the list GET, POST). -/
inductive Method where
  | GET : Method
  | POST : Method
deriving DecidableEq, Repr

/-- An inbound HTTP request as the handlers observe it: the method, the URL
path, the lowercased mimetype taken from the Content-Type header (none when
the header is absent), and the raw body bytes. -/
structure Request where
  method : Method
  path : String
  mimetype : Option String
  body : String
deriving DecidableEq, Repr

/-- Model of werkzeug Request.is_json: the mimetype is application/json or an
application/(something)+json type. -/
def Request.is_json (r : Request) : Bool :=
  match r.mimetype with
  | none => false
  | some mt => mt == "application/json" || (strStartsWith mt "application/" && strEndsWith mt "+json")

/-- An outbound HTTP response: status code, header list, body bytes. -/
structure Response where
  status : Nat
  headers : List (String × String)
  body : String
deriving DecidableEq, Repr

/-- What a request handling produces: the response, and the seconds of
time.sleep the handler executed before returning it (600 for the
/no-response view, 0 everywhere else).  No bytes reach the wire before the
sleep finishes, so the delay is the earliest wall-clock time, counted from
request receipt, at which the first response byte can be emitted. -/
structure Outcome where
  delay : Nat
  response : Response
deriving DecidableEq, Repr

/-- Time, in seconds from request receipt, before which no response byte is
emitted for this outcome. -/
def firstByteTime (o : Outcome) : Nat := o.delay

/-- The one exception the handlers can raise: request.json fails to decode
the body of a JSON-typed request and werkzeug raises BadRequest (HTTP 400).
Flask turns it into its standard 400 error response. -/
inductive HttpError where
  | badRequest : HttpError
deriving DecidableEq, Repr

/-- Flask default mimetype header value, applied by werkzeug whenever a view
returns a plain string or builds a Response without an explicit content
type (werkzeug Response.default_mimetype is text/html and get_content_type
appends the charset). -/
def defaultContentType : String := "text/html; charset=utf-8"

/-- Model of flask.jsonify(v) returned with the given status: body is the
serialised document plus a trailing newline, content type application/json. -/
def jsonify (v : Json) (status : Nat) : Response :=
  { status := status
    headers := [("Content-Type", "application/json")]
    body := render v ++ "\n" }

/-- Model of returning a plain string from a view: werkzeug wraps it in a
Response with the default mimetype text/html. -/
def textResponse (body : String) (status : Nat) : Response :=
  { status := status, headers := [("Content-Type", defaultContentType)], body := body }

/-- Model of returning (body, status, headers) from a view with an explicit
header dictionary: the given headers are used verbatim. -/
def responseWith (body : String) (status : Nat) (hs : List (String × String)) : Response :=
  { status := status, headers := hs, body := body }

/-! ## The POST-body logging block

Every view in src/app.py begins with the same block:

  if request.method == POST:
      if request.is_json: logging.info(request.json)
      else:               logging.info(request.form)

request.json parses the raw body with json.loads and, when parsing fails,
raises BadRequest; request.form is parsed by werkzeug with silent error
handling (malformed or non-form bodies simply yield an empty multidict), so
the form branch never raises.  Logging itself writes to the console and
touches no module state. -/

/-- The shared logging block of every view.  Returns badRequest exactly when
the view would propagate werkzeug's BadRequest out of request.json. -/
def logPostBody (r : Request) : Except HttpError Unit :=
  match r.method with
  | Method.GET => Except.ok ()
  | Method.POST =>
    if r.is_json then
      match parseJson r.body with
      | some _ => Except.ok ()
      | none => Except.error HttpError.badRequest
    else Except.ok ()

/-! ## The ten view functions (src/app.py lines 13 to 249) -/

/-- Body of the response the /no-response view builds after its sleep. -/
def no_response_message : Json :=
  Json.obj [("message", Json.str "This response should not be seen by the client due to timeout.")]

/-- View for /no-response: log, time.sleep(600), then jsonify a message with
status 200 (src/app.py lines 13 to 45). -/
def no_response_endpoint (r : Request) : Except HttpError Outcome :=
  match logPostBody r with
  | Except.error e => Except.error e
  | Except.ok _ => Except.ok { delay := 600, response := jsonify no_response_message 200 }

/-- The deliberately truncated JSON text of /malformed-response
(src/app.py line 64). -/
def malformed_json_string : String :=
  "\x7b\"status\": \"error\", \"message\": \"This is malformed JSON, missing a closing brace or invalid syntax\", \"data\": [1, 2,"

/-- View for /malformed-response: log, then return the truncated string with
status 200 and an explicit application/json content type
(src/app.py lines 47 to 71). -/
def malformed_response_endpoint (r : Request) : Except HttpError Outcome :=
  match logPostBody r with
  | Except.error e => Except.error e
  | Except.ok _ =>
    Except.ok { delay := 0
                response := responseWith malformed_json_string 200 [("Content-Type", "application/json")] }

/-- View for /empty-json-response: log, then jsonify an empty object with
status 200 (src/app.py lines 73 to 89). -/
def empty_json_response_endpoint (r : Request) : Except HttpError Outcome :=
  match logPostBody r with
  | Except.error e => Except.error e
  | Except.ok _ => Except.ok { delay := 0, response := jsonify (Json.obj []) 200 }

/-- View for /non-json-with-json-header: log, then return plain text with an
explicit application/json content type (src/app.py lines 91 to 107). -/
def non_json_with_json_header_endpoint (r : Request) : Except HttpError Outcome :=
  match logPostBody r with
  | Except.error e => Except.error e
  | Except.ok _ =>
    Except.ok { delay := 0
                response := responseWith "This is not JSON, but the header says it is!" 200
                  [("Content-Type", "application/json")] }

/-- The response_data dictionary of /empty-structured-json
(src/app.py lines 131 to 143). -/
def empty_structured_response_data : Json :=
  Json.obj
    [("output", Json.obj
        [("text", Json.str ""),
         ("tokens", Json.num "0"),
         ("status", Json.str "success"),
         ("model_response", Json.null)]),
     ("details", Json.obj []),
     ("metadata", Json.arr [])]

/-- View for /empty-structured-json: log, then jsonify response_data with
status 200 (src/app.py lines 109 to 146). -/
def empty_structured_json_endpoint (r : Request) : Except HttpError Outcome :=
  match logPostBody r with
  | Except.error e => Except.error e
  | Except.ok _ => Except.ok { delay := 0, response := jsonify empty_structured_response_data 200 }

/-- View for /no-content-204: log, then return Response(status=204)
(src/app.py lines 148 to 164).  werkzeug fills in the default mimetype
text/html since none was given, and for a 204 it suppresses only
Content-Length, so the Content-Type header is still sent. -/
def no_content_204_endpoint (r : Request) : Except HttpError Outcome :=
  match logPostBody r with
  | Except.error e => Except.error e
  | Except.ok _ => Except.ok { delay := 0, response := textResponse "" 204 }

/-- The markup string of /html-like-response (src/app.py line 182). -/
def html_content : String :=
  "<html><body><h1>Hello from Test API!</h1><p>This is an HTML response.</p></body></html>"

/-- View for /html-like-response: log, then return
Response(html_content, mimetype=text/html), a 200 with the charset appended
to the text mimetype (src/app.py lines 166 to 183). -/
def html_like_response_endpoint (r : Request) : Except HttpError Outcome :=
  match logPostBody r with
  | Except.error e => Except.error e
  | Except.ok _ => Except.ok { delay := 0, response := textResponse html_content 200 }

/-- View for /empty-body-200: log, then return an empty string with status
200 and no explicit content type; werkzeug applies the default text/html
(src/app.py lines 185 to 202). -/
def empty_body_200_endpoint (r : Request) : Except HttpError Outcome :=
  match logPostBody r with
  | Except.error e => Except.error e
  | Except.ok _ => Except.ok { delay := 0, response := textResponse "" 200 }

/-- View for /simple-unexpected-json: log, then jsonify a flat object with
status 200 (src/app.py lines 204 to 220). -/
def simple_unexpected_json_endpoint (r : Request) : Except HttpError Outcome :=
  match logPostBody r with
  | Except.error e => Except.error e
  | Except.ok _ =>
    Except.ok { delay := 0
                response := jsonify (Json.obj
                  [("status", Json.str "ok"),
                   ("message", Json.str "This is a simple response.")]) 200 }

/-- The response_data dictionary of /specific-llm-like-response
(src/app.py lines 237 to 248). -/
def specific_llm_response_data : Json :=
  Json.obj
    [("choices", Json.arr
        [Json.obj
          [("message", Json.obj
              [("role", Json.str "string"),
               ("content", Json.str "string<>")]),
           ("finish_reason", Json.str "string"),
           ("index", Json.str "string")]])]

/-- View for /specific-llm-like-response: log, then jsonify the LLM-shaped
object with status 200 (src/app.py lines 222 to 249). -/
def specific_llm_like_response_endpoint (r : Request) : Except HttpError Outcome :=
  match logPostBody r with
  | Except.error e => Except.error e
  | Except.ok _ => Except.ok { delay := 0, response := jsonify specific_llm_response_data 200 }

/-! ## Route registry and dispatch -/

/-- One registered route: the path, the accepted methods as declared in the
app.route decorator, and the view function. -/
structure Rule where
  path : String
  methods : List Method
  view : Request → Except HttpError Outcome

/-- The route registry built by the module-level app.route decorators, in
source order.  It is module-level state: built once at import time and read,
never written, by request handling. -/
def url_map : List Rule :=
  [⟨"/no-response", [Method.GET, Method.POST], no_response_endpoint⟩,
   ⟨"/malformed-response", [Method.GET, Method.POST], malformed_response_endpoint⟩,
   ⟨"/empty-json-response", [Method.GET, Method.POST], empty_json_response_endpoint⟩,
   ⟨"/non-json-with-json-header", [Method.GET, Method.POST], non_json_with_json_header_endpoint⟩,
   ⟨"/empty-structured-json", [Method.GET, Method.POST], empty_structured_json_endpoint⟩,
   ⟨"/no-content-204", [Method.GET, Method.POST], no_content_204_endpoint⟩,
   ⟨"/html-like-response", [Method.GET, Method.POST], html_like_response_endpoint⟩,
   ⟨"/empty-body-200", [Method.GET, Method.POST], empty_body_200_endpoint⟩,
   ⟨"/simple-unexpected-json", [Method.GET, Method.POST], simple_unexpected_json_endpoint⟩,
   ⟨"/specific-llm-like-response", [Method.GET, Method.POST], specific_llm_like_response_endpoint⟩]

/-- Flask's standard 400 Bad Request error page (sent with the default
text/html content type when request.json raises BadRequest). -/
def badRequestBody : String :=
  "<!doctype html>\n<html lang=en>\n<title>400 Bad Request</title>\n<h1>Bad Request</h1>\n<p>Failed to decode JSON object.</p>\n"

/-- Outcome Flask produces when a view raises BadRequest: an immediate 400. -/
def errorOutcome : Outcome :=
  { delay := 0, response := textResponse badRequestBody 400 }

/-- Flask's standard 404 Not Found error page. -/
def notFoundBody : String :=
  "<!doctype html>\n<html lang=en>\n<title>404 Not Found</title>\n<h1>Not Found</h1>\n<p>The requested URL was not found on the server.</p>\n"

/-- Outcome for a path that matches no registered route: an immediate 404. -/
def notFoundOutcome : Outcome :=
  { delay := 0, response := textResponse notFoundBody 404 }

/-- Flask's standard 405 Method Not Allowed error page. -/
def methodNotAllowedBody : String :=
  "<!doctype html>\n<html lang=en>\n<title>405 Method Not Allowed</title>\n<h1>Method Not Allowed</h1>\n<p>The method is not allowed for the requested URL.</p>\n"

/-- Outcome for a matched path whose rule does not accept the method. -/
def methodNotAllowedOutcome : Outcome :=
  { delay := 0, response := textResponse methodNotAllowedBody 405 }

/-- Route lookup: first rule whose path equals the request path (paths are
unique, so order does not matter). -/
def findRule (rules : List Rule) (p : String) : Option Rule :=
  rules.find? (fun rule => rule.path == p)

/-- Flask request dispatch against a given registry: route by path, check the
method, run the view, and turn a raised BadRequest into the immediate 400
error response. -/
def full_dispatch_request (rules : List Rule) (r : Request) : Outcome :=
  match findRule rules r.path with
  | none => notFoundOutcome
  | some rule =>
    if rule.methods.contains r.method then
      match rule.view r with
      | Except.ok o => o
      | Except.error HttpError.badRequest => errorOutcome
    else methodNotAllowedOutcome

/-- Handling one request against the application's registry. -/
def handle (r : Request) : Outcome := full_dispatch_request url_map r

/-- Handling a sequence of requests with the registry threaded through as the
module-level state.  Each step reads the registry and returns it unchanged,
because no handler in src/app.py assigns to any module-level name. -/
def runAll (rules : List Rule) : List Request → List Outcome × List Rule
  | [] => ([], rules)
  | r :: rs =>
    let o := full_dispatch_request rules r
    let (os, rules1) := runAll rules rs
    (o :: os, rules1)

/-- The canonical bodyless GET request to a path.  Its logging block is a
no-op, so its outcome is the route's fixed canned outcome. -/
def canonicalGet (p : String) : Request :=
  { method := Method.GET, path := p, mimetype := none, body := "" }

/-- The fixed outcome of a path: what the application answers to a bodyless
GET, and, as proved below, to every request whose logging block succeeds. -/
def fixedOutcome (p : String) : Outcome := handle (canonicalGet p)

/-! ## Auxiliary definitions for the statements -/

/-- A POST carrying raw binary with a non-JSON content type. -/
def reqC1a : Request :=
  { method := Method.POST, path := "/simple-unexpected-json",
    mimetype := some "application/octet-stream", body := "\x01\x02\x03" }

/-- A POST declaring application/json whose body is not JSON. -/
def reqC1b : Request :=
  { method := Method.POST, path := "/simple-unexpected-json",
    mimetype := some "application/json", body := "raw-bytes" }

/-- A bodyless GET to /empty-json-response. -/
def reqC2a : Request :=
  { method := Method.GET, path := "/empty-json-response", mimetype := none, body := "" }

/-- A POST to /empty-json-response declaring application/json with a body
that fails JSON parsing. -/
def reqC2b : Request :=
  { method := Method.POST, path := "/empty-json-response",
    mimetype := some "application/json", body := "not json" }

/-- A POST to /empty-json-response with a well-formed JSON body. -/
def reqC2c : Request :=
  { method := Method.POST, path := "/empty-json-response",
    mimetype := some "application/json", body := "\x7b\"k\": 1\x7d" }

/-- A POST to /no-content-204 declaring application/json with a body that
fails JSON parsing. -/
def reqC3 : Request :=
  { method := Method.POST, path := "/no-content-204",
    mimetype := some "application/json", body := "[1," }

/-- A POST to /no-response declaring application/json with a body that fails
JSON parsing. -/
def reqC4 : Request :=
  { method := Method.POST, path := "/no-response",
    mimetype := some "application/json", body := "\x7b\x7b" }

/-- A POST to /malformed-response declaring application/json with a body
that fails JSON parsing. -/
def reqC5 : Request :=
  { method := Method.POST, path := "/malformed-response",
    mimetype := some "application/json", body := "]" }

/-- A POST to /empty-structured-json declaring application/json with a body
that fails JSON parsing. -/
def reqC6 : Request :=
  { method := Method.POST, path := "/empty-structured-json",
    mimetype := some "application/json", body := "nope" }

/-- A POST to /empty-body-200 declaring application/json whose body is a
lone double quote, an unterminated JSON string. -/
def reqC7 : Request :=
  { method := Method.POST, path := "/empty-body-200",
    mimetype := some "application/json", body := "\x22" }

/-- A GET request used to exercise repeated handling. -/
def reqC8 : Request :=
  { method := Method.GET, path := "/html-like-response", mimetype := none, body := "" }

/-! ## Helper lemmas -/

/-- The logging block of a GET request is a no-op. -/
theorem logPostBody_get (p : String) (mt : Option String) (b : String) :
    logPostBody { method := Method.GET, path := p, mimetype := mt, body := b } = Except.ok () :=
  rfl

/-- Every registered method list accepts both GET and POST. -/
theorem contains_method (m : Method) : ([Method.GET, Method.POST]).contains m = true := by
  cases m <;> rfl

/-- Whenever the logging block succeeds, a request is answered with the
fixed canned outcome of its path: no view inspects the request after the
logging block, so the response only depends on the path. -/
theorem handle_eq_fixedOutcome (r : Request) (h : logPostBody r = Except.ok ()) :
    handle r = fixedOutcome r.path := by
  simp only [handle, fixedOutcome, full_dispatch_request, canonicalGet]
  cases hf : findRule url_map r.path with
  | none => rfl
  | some rule =>
    have hm : rule ∈ url_map := List.mem_of_find?_eq_some hf
    simp only [url_map, List.mem_cons, List.not_mem_nil, or_false] at hm
    rcases hm with rfl | rfl | rfl | rfl | rfl | rfl | rfl | rfl | rfl | rfl <;>
      cases hm2 : r.method <;>
        simp [no_response_endpoint, malformed_response_endpoint, empty_json_response_endpoint,
          non_json_with_json_header_endpoint, empty_structured_json_endpoint,
          no_content_204_endpoint, html_like_response_endpoint, empty_body_200_endpoint,
          simple_unexpected_json_endpoint, specific_llm_like_response_endpoint,
          h, hm2, logPostBody_get]

/-- Whenever the logging block raises BadRequest on a registered path, Flask
answers with its immediate 400 error response. -/
theorem handle_logFail (r : Request) (h : logPostBody r = Except.error HttpError.badRequest)
    (hf : (findRule url_map r.path).isSome = true) :
    handle r = errorOutcome := by
  simp only [handle, full_dispatch_request]
  cases hfr : findRule url_map r.path with
  | none => rw [hfr] at hf; simp at hf
  | some rule =>
    have hm : rule ∈ url_map := List.mem_of_find?_eq_some hfr
    simp only [url_map, List.mem_cons, List.not_mem_nil, or_false] at hm
    rcases hm with rfl | rfl | rfl | rfl | rfl | rfl | rfl | rfl | rfl | rfl <;>
      cases hm2 : r.method <;>
        simp [no_response_endpoint, malformed_response_endpoint, empty_json_response_endpoint,
          non_json_with_json_header_endpoint, empty_structured_json_endpoint,
          no_content_204_endpoint, html_like_response_endpoint, empty_body_200_endpoint,
          simple_unexpected_json_endpoint, specific_llm_like_response_endpoint,
          h, hm2]

/-- Handling a sequence produces exactly the per-request outcomes. -/
theorem runAll_fst (rules : List Rule) (reqs : List Request) :
    (runAll rules reqs).1 = reqs.map (full_dispatch_request rules) := by
  induction reqs with
  | nil => rfl
  | cons r rs ih => simp [runAll, ih]

/-- Handling a sequence leaves the registry untouched. -/
theorem runAll_snd (rules : List Rule) (reqs : List Request) :
    (runAll rules reqs).2 = rules := by
  induction reqs with
  | nil => rfl
  | cons r rs ih => simp [runAll, ih]

/-! ## The claims -/

/-- C1, counterexample to the claim as stated: a POST to
/simple-unexpected-json that declares Content-Type application/json with a
body that does not parse as JSON is answered with Flask's 400 Bad Request
page, not the route's fixed response, because request.json raises
BadRequest and no handler catches it. -/
theorem c1_counterexample :
    (handle reqC1b).response.status = 400 ∧
      handle reqC1b ≠ fixedOutcome "/simple-unexpected-json" := by
  exact ⟨rfl, by decide⟩

/-- C1, amended: for a POST whose body is not declared as JSON (for example
raw binary under a non-JSON content type), the logging block reads the
leniently parsed form data, raises nothing, and the route's fixed response
is returned unchanged; but for a POST declared application/json whose body
fails JSON parsing, request.json raises BadRequest and the caller observes
Flask's immediate 400 error response instead of the fixed response. -/
theorem c1_post_logging (r : Request) (hf : (findRule url_map r.path).isSome = true)
    (hm : r.method = Method.POST) :
    (r.is_json = false → logPostBody r = Except.ok () ∧ handle r = fixedOutcome r.path) ∧
      (r.is_json = true → parseJson r.body = none → handle r = errorOutcome) := by
  constructor
  · intro hj
    have hok : logPostBody r = Except.ok () := by
      simp [logPostBody, hm, hj]
    exact ⟨hok, handle_eq_fixedOutcome r hok⟩
  · intro hj hp
    have herr : logPostBody r = Except.error HttpError.badRequest := by
      simp only [logPostBody, hm, hj, hp, if_true]
    exact handle_logFail r herr hf

/-- C1, witness: the amended claim applied to a raw-binary POST and to a
bad-JSON POST to /simple-unexpected-json. -/
theorem c1_post_logging_witness :
    (findRule url_map reqC1a.path).isSome = true ∧
      reqC1a.method = Method.POST ∧ reqC1a.is_json = false ∧
      handle reqC1a = fixedOutcome reqC1a.path ∧
      reqC1b.is_json = true ∧ parseJson reqC1b.body = none ∧
      handle reqC1b = errorOutcome :=
  ⟨rfl, rfl, rfl, ((c1_post_logging reqC1a rfl rfl).1 rfl).2, rfl, rfl,
    (c1_post_logging reqC1b rfl rfl).2 rfl rfl⟩

/-- C2, counterexample to the claim as stated: two requests to the same path
/empty-json-response receive different responses, because the POST declaring
application/json with an unparseable body is answered 400 while the GET
receives the canned 200. -/
theorem c2_counterexample :
    reqC2a.path = reqC2b.path ∧ handle reqC2a ≠ handle reqC2b := by
  exact ⟨rfl, by decide⟩

/-- C2, amended: any two requests to the same path receive identical
responses provided the logging block succeeds on both (which it does for
every GET and for every POST except one declaring a JSON content type with
a body that fails JSON parsing); the response depends only on the path. -/
theorem c2_content_independent (r1 r2 : Request) (hp : r1.path = r2.path)
    (h1 : logPostBody r1 = Except.ok ()) (h2 : logPostBody r2 = Except.ok ()) :
    handle r1 = handle r2 := by
  rw [handle_eq_fixedOutcome r1 h1, handle_eq_fixedOutcome r2 h2, hp]

/-- C2, witness: a bodyless GET and a valid-JSON POST to
/empty-json-response receive identical responses. -/
theorem c2_content_independent_witness :
    reqC2a.path = reqC2c.path ∧ logPostBody reqC2a = Except.ok () ∧
      logPostBody reqC2c = Except.ok () ∧ handle reqC2a = handle reqC2c :=
  ⟨rfl, rfl, rfl, c2_content_independent reqC2a reqC2c rfl rfl rfl⟩

/-- C3, counterexample to the claim as stated: the 204 response does carry a
Content-Type header, namely Flask's default text/html with charset, because
werkzeug fills in the default mimetype and suppresses only Content-Length
for a 204; moreover a POST declaring application/json with an unparseable
body is answered 400, not 204. -/
theorem c3_counterexample :
    (handle (canonicalGet "/no-content-204")).response.headers
        = [("Content-Type", "text/html; charset=utf-8")] ∧
      (handle reqC3).response.status = 400 :=
  ⟨rfl, rfl⟩

/-- C3, amended: every request to /no-content-204 whose logging block
succeeds receives status 204 with a zero-length body, but the response
carries the Content-Type header text/html; charset=utf-8 that werkzeug
derives from its default mimetype, since the handler set none. -/
theorem c3_no_content_204 (r : Request) (hp : r.path = "/no-content-204")
    (h : logPostBody r = Except.ok ()) :
    (handle r).response.status = 204 ∧ (handle r).response.body = "" ∧
      (handle r).response.headers = [("Content-Type", "text/html; charset=utf-8")] := by
  rw [handle_eq_fixedOutcome r h, hp]
  exact ⟨rfl, rfl, rfl⟩

/-- C3, witness: the amended claim applied to a bodyless GET. -/
theorem c3_no_content_204_witness :
    (canonicalGet "/no-content-204").path = "/no-content-204" ∧
      logPostBody (canonicalGet "/no-content-204") = Except.ok () ∧
      ((handle (canonicalGet "/no-content-204")).response.status = 204 ∧
        (handle (canonicalGet "/no-content-204")).response.body = "" ∧
        (handle (canonicalGet "/no-content-204")).response.headers
          = [("Content-Type", "text/html; charset=utf-8")]) :=
  ⟨rfl, rfl, c3_no_content_204 (canonicalGet "/no-content-204") rfl rfl⟩

/-- C4, counterexample to the claim as stated: a POST to /no-response that
declares application/json with an unparseable body is answered immediately,
at zero seconds, with Flask's 400 error response: response bytes are
emitted long before the 600 seconds elapse, because request.json raises
before the handler reaches time.sleep(600). -/
theorem c4_counterexample :
    firstByteTime (handle reqC4) = 0 ∧ (handle reqC4).response.status = 400 :=
  ⟨rfl, rfl⟩

/-- C4, amended: for every request to /no-response whose logging block
succeeds, the handler sleeps 600 seconds before returning, so no response
byte is emitted before 600 seconds of wall-clock time elapse from request
receipt, and only then is the JSON message body emitted. -/
theorem c4_no_response_delay (r : Request) (hp : r.path = "/no-response")
    (h : logPostBody r = Except.ok ()) :
    600 ≤ firstByteTime (handle r) ∧
      (handle r).response = jsonify no_response_message 200 := by
  rw [handle_eq_fixedOutcome r h, hp]
  exact ⟨Nat.le_refl 600, rfl⟩

/-- C4, witness: the amended claim applied to a bodyless GET. -/
theorem c4_no_response_delay_witness :
    (canonicalGet "/no-response").path = "/no-response" ∧
      logPostBody (canonicalGet "/no-response") = Except.ok () ∧
      (600 ≤ firstByteTime (handle (canonicalGet "/no-response")) ∧
        (handle (canonicalGet "/no-response")).response = jsonify no_response_message 200) :=
  ⟨rfl, rfl, c4_no_response_delay (canonicalGet "/no-response") rfl rfl⟩

/-- C5, counterexample to the claim as stated: a POST to /malformed-response
declaring application/json with an unparseable body is answered 400 with
Flask's error page, not the 200 carrying the truncated string. -/
theorem c5_counterexample :
    (handle reqC5).response.status = 400 ∧
      (handle reqC5).response.body ≠ malformed_json_string := by
  exact ⟨rfl, by decide⟩

/-- C5, amended: every request to /malformed-response whose logging block
succeeds receives status 200 with Content-Type application/json and the
literal truncated body, which begins with the status-error opening, ends in
the unterminated array, and fails standard JSON parsing. -/
theorem c5_malformed_response (r : Request) (hp : r.path = "/malformed-response")
    (h : logPostBody r = Except.ok ()) :
    (handle r).response.status = 200 ∧
      (handle r).response.headers = [("Content-Type", "application/json")] ∧
      (handle r).response.body = malformed_json_string ∧
      strStartsWith malformed_json_string "\x7b\"status\": \"error\"," = true ∧
      strEndsWith malformed_json_string "\"data\": [1, 2," = true ∧
      parseJson malformed_json_string = none := by
  rw [handle_eq_fixedOutcome r h, hp]
  exact ⟨rfl, rfl, rfl, rfl, rfl, rfl⟩

/-- C5, witness: the amended claim applied to a bodyless GET. -/
theorem c5_malformed_response_witness :
    (canonicalGet "/malformed-response").path = "/malformed-response" ∧
      logPostBody (canonicalGet "/malformed-response") = Except.ok () ∧
      ((handle (canonicalGet "/malformed-response")).response.status = 200 ∧
        (handle (canonicalGet "/malformed-response")).response.headers
          = [("Content-Type", "application/json")] ∧
        (handle (canonicalGet "/malformed-response")).response.body = malformed_json_string ∧
        strStartsWith malformed_json_string "\x7b\"status\": \"error\"," = true ∧
        strEndsWith malformed_json_string "\"data\": [1, 2," = true ∧
        parseJson malformed_json_string = none) :=
  ⟨rfl, rfl, c5_malformed_response (canonicalGet "/malformed-response") rfl rfl⟩

/-- C6, counterexample to the claim as stated: a POST to
/empty-structured-json declaring application/json with an unparseable body
is answered 400, not 200. -/
theorem c6_counterexample :
    (handle reqC6).response.status = 400 :=
  rfl

/-- C6, amended: every request to /empty-structured-json whose logging block
succeeds receives status 200 with Content-Type application/json and the
fixed structure whose output.text is the empty string, output.tokens is 0,
output.model_response is null, details is an empty object and metadata is
an empty array. -/
theorem c6_empty_structured (r : Request) (hp : r.path = "/empty-structured-json")
    (h : logPostBody r = Except.ok ()) :
    (handle r).response.status = 200 ∧
      (handle r).response.headers = [("Content-Type", "application/json")] ∧
      (handle r).response = jsonify empty_structured_response_data 200 ∧
      (empty_structured_response_data.getField "output").bind (fun o => o.getField "text")
        = some (Json.str "") ∧
      (empty_structured_response_data.getField "output").bind (fun o => o.getField "tokens")
        = some (Json.num "0") ∧
      (empty_structured_response_data.getField "output").bind (fun o => o.getField "model_response")
        = some Json.null ∧
      empty_structured_response_data.getField "details" = some (Json.obj []) ∧
      empty_structured_response_data.getField "metadata" = some (Json.arr []) := by
  rw [handle_eq_fixedOutcome r h, hp]
  exact ⟨rfl, rfl, rfl, rfl, rfl, rfl, rfl, rfl⟩

/-- C6, witness: the amended claim applied to a bodyless GET. -/
theorem c6_empty_structured_witness :
    (canonicalGet "/empty-structured-json").path = "/empty-structured-json" ∧
      logPostBody (canonicalGet "/empty-structured-json") = Except.ok () ∧
      ((handle (canonicalGet "/empty-structured-json")).response.status = 200 ∧
        (handle (canonicalGet "/empty-structured-json")).response.headers
          = [("Content-Type", "application/json")] ∧
        (handle (canonicalGet "/empty-structured-json")).response
          = jsonify empty_structured_response_data 200 ∧
        (empty_structured_response_data.getField "output").bind (fun o => o.getField "text")
          = some (Json.str "") ∧
        (empty_structured_response_data.getField "output").bind (fun o => o.getField "tokens")
          = some (Json.num "0") ∧
        (empty_structured_response_data.getField "output").bind (fun o => o.getField "model_response")
          = some Json.null ∧
        empty_structured_response_data.getField "details" = some (Json.obj []) ∧
        empty_structured_response_data.getField "metadata" = some (Json.arr [])) :=
  ⟨rfl, rfl, c6_empty_structured (canonicalGet "/empty-structured-json") rfl rfl⟩

/-- C7, counterexample to the claim as stated: a POST to /empty-body-200
declaring application/json whose body is an unterminated JSON string is
answered 400 with Flask's non-empty error page, not a 200 with empty
body. -/
theorem c7_counterexample :
    (handle reqC7).response.status = 400 ∧ (handle reqC7).response.body ≠ "" := by
  exact ⟨rfl, by decide⟩

/-- C7, amended: every request to /empty-body-200 whose logging block
succeeds receives status 200 with a zero-length body; the handler sets no
Content-Type, so the response is exactly the plain-string form to which
werkzeug applies its default text/html content type. -/
theorem c7_empty_body (r : Request) (hp : r.path = "/empty-body-200")
    (h : logPostBody r = Except.ok ()) :
    (handle r).response.status = 200 ∧ (handle r).response.body = "" ∧
      (handle r).response = textResponse "" 200 := by
  rw [handle_eq_fixedOutcome r h, hp]
  exact ⟨rfl, rfl, rfl⟩

/-- C7, witness: the amended claim applied to a bodyless GET. -/
theorem c7_empty_body_witness :
    (canonicalGet "/empty-body-200").path = "/empty-body-200" ∧
      logPostBody (canonicalGet "/empty-body-200") = Except.ok () ∧
      ((handle (canonicalGet "/empty-body-200")).response.status = 200 ∧
        (handle (canonicalGet "/empty-body-200")).response.body = "" ∧
        (handle (canonicalGet "/empty-body-200")).response = textResponse "" 200) :=
  ⟨rfl, rfl, c7_empty_body (canonicalGet "/empty-body-200") rfl rfl⟩

/-- C8: repeated calls with the same request, anywhere in any sequence of
requests, produce byte-identical responses: the outcome at position i
equals the outcome at position j whenever the requests there are equal,
because handling is a pure function of the request with no counters,
randomness or drift. -/
theorem c8_idempotent (reqs : List Request) (i j : Nat) (h : reqs[i]? = reqs[j]?) :
    (runAll url_map reqs).1[i]? = (runAll url_map reqs).1[j]? := by
  rw [runAll_fst, List.getElem?_map, List.getElem?_map, h]

/-- C8, witness: two identical GET requests in one run receive identical
responses. -/
theorem c8_idempotent_witness :
    ([reqC8, reqC8] : List Request)[0]? = [reqC8, reqC8][1]? ∧
      (runAll url_map [reqC8, reqC8]).1[0]? = (runAll url_map [reqC8, reqC8]).1[1]? :=
  ⟨rfl, c8_idempotent [reqC8, reqC8] 0 1 rfl⟩

/-- C9: the endpoint registry is static: it holds exactly ten routes with
pairwise distinct paths, each declared with exactly the methods GET and
POST, and after handling any sequence of requests the registry, the only
module-level state the handlers touch, equals its initial value. -/
theorem c9_registry (reqs : List Request) :
    (runAll url_map reqs).2 = url_map ∧
      url_map.length = 10 ∧
      (url_map.map Rule.path).Nodup ∧
      ∀ rule ∈ url_map, rule.methods = [Method.GET, Method.POST] := by
  refine ⟨runAll_snd url_map reqs, rfl, by decide, ?_⟩
  intro rule hm
  simp only [url_map, List.mem_cons, List.not_mem_nil, or_false] at hm
  rcases hm with rfl | rfl | rfl | rfl | rfl | rfl | rfl | rfl | rfl | rfl <;> rfl

/-- C9, witness: the registry facts instantiated at the empty request
sequence. -/
theorem c9_registry_witness :
    (runAll url_map []).2 = url_map ∧
      url_map.length = 10 ∧
      (url_map.map Rule.path).Nodup ∧
      ∀ rule ∈ url_map, rule.methods = [Method.GET, Method.POST] :=
  c9_registry []

/-- C10: if the /no-response handler runs to completion (its logging block
succeeded and the 600-second sleep finished with the connection open), the
response it then sends has status 200, Content-Type application/json, and
a body that parses to the JSON object whose single field message is the
string about the response not being seen due to timeout. -/
theorem c10_after_sleep (r : Request) (hp : r.path = "/no-response")
    (h : logPostBody r = Except.ok ()) :
    (handle r).delay = 600 ∧
      (handle r).response.status = 200 ∧
      (handle r).response.headers = [("Content-Type", "application/json")] ∧
      (handle r).response = jsonify no_response_message 200 ∧
      parseJson (handle r).response.body
        = some (Json.obj [("message",
            Json.str "This response should not be seen by the client due to timeout.")]) := by
  rw [handle_eq_fixedOutcome r h, hp]
  exact ⟨rfl, rfl, rfl, rfl, rfl⟩

/-- C10, witness: the claim applied to a bodyless GET. -/
theorem c10_after_sleep_witness :
    (canonicalGet "/no-response").path = "/no-response" ∧
      logPostBody (canonicalGet "/no-response") = Except.ok () ∧
      ((handle (canonicalGet "/no-response")).delay = 600 ∧
        (handle (canonicalGet "/no-response")).response.status = 200 ∧
        (handle (canonicalGet "/no-response")).response.headers
          = [("Content-Type", "application/json")] ∧
        (handle (canonicalGet "/no-response")).response = jsonify no_response_message 200 ∧
        parseJson (handle (canonicalGet "/no-response")).response.body
          = some (Json.obj [("message",
              Json.str "This response should not be seen by the client due to timeout.")])) :=
  ⟨rfl, rfl, c10_after_sleep (canonicalGet "/no-response") rfl rfl⟩

end App
